import Mathlib

/-!
Verification of the Pong simulation core in `ping_pong_game.py`.

The game's numeric state (Python floats) is embedded with exact rationals
`ℚ`; the trigonometric velocity computations (`Ball.launch`, the paddle
reflection in `Game.handle_collisions`, lines 334-357) are embedded over
`ℝ` with `Real.cos` / `Real.sin`.  The pygame one-shot timers
(`pygame.time.set_timer(USEREVENT+k, 6000)`) are modelled as explicit
expiry deadlines: re-setting a pygame timer replaces the previous one, so
applying a power-up stores `some (now + POWERUP_DURATION)` and the expiry
handler stores `none`.
-/

set_option autoImplicit false

namespace PingPong

/- Constants, lines 32-54 of ping_pong_game.py. -/

def WIDTH : ℚ := 1000
def HEIGHT : ℚ := 600
def PADDLE_WIDTH : ℚ := 14
def PADDLE_HEIGHT : ℚ := 110
def BALL_RADIUS : ℚ := 10
def WIN_SCORE : ℕ := 7
def POWERUP_DURATION : ℚ := 6
def BALL_BASE_SPEED : ℚ := 380
def PADDLE_SPEED : ℚ := 420

/-- `clamp(x, a, b) = max(a, min(b, x))`, line 60-61. -/
def clamp (x a b : ℚ) : ℚ := max a (min b x)

/-- The `Ball` class fields (lines 157-164): position, velocity, speed and
per-ball slow factor.  `1.04` is `26/25`, `0.55` is `11/20`. -/
structure Ball where
  posx : ℚ
  posy : ℚ
  velx : ℚ
  vely : ℚ
  speed : ℚ
  slow_factor : ℚ
  deriving DecidableEq

/-- `Ball.__init__` (lines 158-164): zero velocity, base speed, slow factor 1. -/
def Ball.init (x y : ℚ) : Ball :=
  { posx := x, posy := y, velx := 0, vely := 0,
    speed := BALL_BASE_SPEED, slow_factor := 1 }

/-- `Ball.update` (lines 172-180): `pos += vel * dt * slow_factor`, then an
elastic bounce off the top/bottom walls clamping `pos.y` to the wall and
negating `vel.y`. -/
def Ball.update (dt : ℚ) (b : Ball) : Ball :=
  let px := b.posx + b.velx * dt * b.slow_factor
  let py := b.posy + b.vely * dt * b.slow_factor
  if py - BALL_RADIUS ≤ 0 then
    { b with posx := px, posy := BALL_RADIUS, vely := -b.vely }
  else if py + BALL_RADIUS ≥ HEIGHT then
    { b with posx := px, posy := HEIGHT - BALL_RADIUS, vely := -b.vely }
  else
    { b with posx := px, posy := py }

/-- The `Paddle` class fields (lines 124-133). -/
structure Paddle where
  x : ℚ
  y : ℚ
  w : ℚ
  h : ℚ
  vel : ℚ
  speed : ℚ
  original_h : ℚ
  deriving DecidableEq

/-- `Paddle.__init__` (lines 124-133) at the default height. -/
def Paddle.init (x y : ℚ) : Paddle :=
  { x := x, y := y, w := PADDLE_WIDTH, h := PADDLE_HEIGHT,
    vel := 0, speed := PADDLE_SPEED, original_h := PADDLE_HEIGHT }

/-- `Paddle.update` (lines 135-139): integrate `y += vel * dt`, then clamp
`y` into `[h/2 + 8, HEIGHT - h/2 - 8]`. -/
def Paddle.update (dt : ℚ) (p : Paddle) : Paddle :=
  let y1 := p.y + p.vel * dt
  { p with y := clamp y1 (p.h / 2 + 8) (HEIGHT - p.h / 2 - 8) }

/-- `Paddle.set_height` (lines 146-148); the derived pygame rect is not part
of the simulation state. -/
def Paddle.set_height (new_h : ℚ) (p : Paddle) : Paddle :=
  { p with h := new_h }

/-- `Paddle.reset` (lines 150-151). -/
def Paddle.reset (p : Paddle) : Paddle :=
  p.set_height p.original_h

/-- The `big_paddle` branch's action on the owning paddle (line 376/378):
`set_height(h * 1.6)`. -/
def Paddle.grow (p : Paddle) : Paddle :=
  p.set_height (p.h * (8 / 5))

/-- The simulation-relevant fields of the `Game` class (lines 224-264),
with the four pygame one-shot power-up timers (`USEREVENT+3` .. `+6`)
modelled as optional expiry deadlines. -/
structure Game where
  score_l : ℕ
  score_r : ℕ
  serve_dir : ℤ
  serve_ready : Bool
  last_point_time : ℚ
  ball : Ball
  extra_balls : List Ball
  left_paddle : Paddle
  right_paddle : Paddle
  menu_active : Bool
  menu_selection : ℕ
  boost_deadline : Option ℚ
  slow_deadline : Option ℚ
  big_deadline : Option ℚ
  multi_deadline : Option ℚ
  deriving DecidableEq

/-- `Game.reset_entities` (lines 277-284): recenter both paddles, restore
their heights, recreate the primary ball at the screen center, drop all
extra balls and enter the serve-wait state. -/
def Game.reset_entities (g : Game) : Game :=
  { g with
    left_paddle := Paddle.reset { g.left_paddle with y := HEIGHT / 2 },
    right_paddle := Paddle.reset { g.right_paddle with y := HEIGHT / 2 },
    ball := Ball.init (WIDTH / 2) (HEIGHT / 2),
    extra_balls := [],
    serve_ready := true }

/-- The "Start Game" menu action (lines 414-419): leave the menu, reset
entities and zero both scores. -/
def Game.start_game (g : Game) : Game :=
  { g.reset_entities with menu_active := false, score_l := 0, score_r := 0 }

/-- The restart key handler (lines 425-429): reset entities, zero both
scores and return to the menu. -/
def Game.restart (g : Game) : Game :=
  { g.reset_entities with score_l := 0, score_r := 0, menu_active := true }

/-- The out-of-bounds test of the scoring loop (lines 507 and 517):
`x < -50` or `x > WIDTH + 50`. -/
def ballOut (b : Ball) : Bool :=
  decide (b.posx < -50) || decide (WIDTH + 50 < b.posx)

/-- The `x < -50` branch of the scoring loop (lines 507-516): the right
player scores, the serve direction becomes `-1`, a fresh centered primary
ball replaces all balls, and the serve-wait state is entered. -/
def Game.rightScores (g : Game) : Game :=
  { g with
    score_r := g.score_r + 1, serve_dir := -1, serve_ready := true,
    ball := Ball.init (WIDTH / 2) (HEIGHT / 2), extra_balls := [],
    last_point_time := 0 }

/-- The `x > WIDTH + 50` branch of the scoring loop (lines 517-525). -/
def Game.leftScores (g : Game) : Game :=
  { g with
    score_l := g.score_l + 1, serve_dir := 1, serve_ready := true,
    ball := Ball.init (WIDTH / 2) (HEIGHT / 2), extra_balls := [],
    last_point_time := 0 }

/-- The `for b in balls` scoring loop with its `break` (lines 505-525): the
first out-of-bounds ball ends the rally and no further ball is examined. -/
def Game.scoreLoop (g : Game) : List Ball → Game
  | [] => g
  | b :: rest =>
    if b.posx < -50 then g.rightScores
    else if WIDTH + 50 < b.posx then g.leftScores
    else g.scoreLoop rest

/-- The per-tick scoring check over `[self.ball] + self.extra_balls`. -/
def Game.scoring_check (g : Game) : Game :=
  g.scoreLoop (g.ball :: g.extra_balls)

/-- The win check (lines 549-553): when either score reaches `WIN_SCORE`
return to the menu (selection 0); the scores are left untouched. -/
def Game.check_win (g : Game) : Game :=
  if WIN_SCORE ≤ g.score_l ∨ WIN_SCORE ≤ g.score_r then
    { g with menu_active := true, menu_selection := 0 }
  else g

/-- The `speed_boost` branch of `Game.apply_powerup` (lines 364-370): the
owning paddle's speed cap is multiplied by `1.6 = 8/5` and the 6-second
one-shot timer is (re)started. -/
def Game.apply_speed_boost (side : ℤ) (now : ℚ) (g : Game) : Game :=
  let g1 :=
    if side = -1 then
      { g with left_paddle := { g.left_paddle with speed := g.left_paddle.speed * (8 / 5) } }
    else
      { g with right_paddle := { g.right_paddle with speed := g.right_paddle.speed * (8 / 5) } }
  { g1 with boost_deadline := some (now + POWERUP_DURATION) }

/-- The `USEREVENT+3` expiry handler (lines 449-453): both paddles' speed
caps are set back to the constant `PADDLE_SPEED` and the timer is disabled. -/
def Game.expire_speed_boost (g : Game) : Game :=
  { g with
    left_paddle := { g.left_paddle with speed := PADDLE_SPEED },
    right_paddle := { g.right_paddle with speed := PADDLE_SPEED },
    boost_deadline := none }

/-- The `slow_ball` branch of `Game.apply_powerup` (lines 371-373): only
`self.ball` — the primary ball — gets `slow_factor = 0.55 = 11/20`. -/
def Game.apply_slow_ball (now : ℚ) (g : Game) : Game :=
  { g with
    ball := { g.ball with slow_factor := 11 / 20 },
    slow_deadline := some (now + POWERUP_DURATION) }

/-- The `USEREVENT+4` expiry handler (lines 454-456): the primary ball's
slow factor reverts to 1. -/
def Game.expire_slow_ball (g : Game) : Game :=
  { g with ball := { g.ball with slow_factor := 1 }, slow_deadline := none }

/-- The `big_paddle` branch of `Game.apply_powerup` (lines 374-379). -/
def Game.apply_big_paddle (side : ℤ) (now : ℚ) (g : Game) : Game :=
  let g1 :=
    if side = -1 then { g with left_paddle := g.left_paddle.grow }
    else { g with right_paddle := g.right_paddle.grow }
  { g1 with big_deadline := some (now + POWERUP_DURATION) }

/-- The `USEREVENT+5` expiry handler (lines 457-459). -/
def Game.expire_big_paddle (g : Game) : Game :=
  { g with
    left_paddle := g.left_paddle.reset, right_paddle := g.right_paddle.reset,
    big_deadline := none }

/-- The `multi_ball` branch of `Game.apply_powerup` (lines 380-388): two
extra balls are appended and the 6-second one-shot timer is (re)started.
The two balls themselves are built from the primary ball's position with
random trigonometric launches; that construction is embedded over `ℝ` by
`spawnExtraBall` below, so here the two resulting ball values are taken as
parameters. -/
def Game.apply_multi_ball (b1 b2 : Ball) (now : ℚ) (g : Game) : Game :=
  { g with
    extra_balls := g.extra_balls ++ [b1, b2],
    multi_deadline := some (now + POWERUP_DURATION) }

/-- The `USEREVENT+6` expiry handler (lines 460-462): all extra balls are
discarded. -/
def Game.expire_multi_ball (g : Game) : Game :=
  { g with extra_balls := [], multi_deadline := none }

/- The CPU controller, lines 192-217. -/

/-- The guard of the prediction branch (line 204), with Python's operator
precedence: `(vx > 0 and px > WIDTH/2) or (vx < 0 and px < WIDTH/2)`. -/
def cpuBranch (paddle_x vel_x : ℚ) : Prop :=
  (0 < vel_x ∧ WIDTH / 2 < paddle_x) ∨ (vel_x < 0 ∧ paddle_x < WIDTH / 2)

/-- The denominator of the time-to-intercept computation (line 205):
`ball.vel.x + 1e-6`. -/
def cpuDenom (vel_x : ℚ) : ℚ := vel_x + 1 / 1000000

/-- The time-to-intercept (line 205): `abs((paddle.x - ball.x) / (vx + 1e-6))`. -/
def cpuT (paddle_x ball_x vel_x : ℚ) : ℚ :=
  |(paddle_x - ball_x) / cpuDenom vel_x|

/-- Round-to-nearest at unit `u`: the binary64 result of an arithmetic
operation whose exact value is `x` is the multiple of the ulp `u` of the
result's binade nearest to `x` (no tie arises at the values used below,
so the tie-breaking rule is irrelevant). -/
def roundNearest (u x : ℚ) : ℚ := u * round (x / u)

/-- One iteration of the reflection-folding `while` loop (lines 208-212)
as executed on binary64 floats: the comparisons and the negation `-p` are
exact, while the subtraction `2*HEIGHT - p` is rounded to the nearest
double, i.e. to the nearest multiple of the ulp `u` of its result's
binade. -/
def foldStepDouble (u p : ℚ) : ℚ :=
  if p < 0 then -p
  else if HEIGHT < p then roundNearest u (2 * HEIGHT - p)
  else p

/- In-rally evolution of a single ball, for the speed-escalation claims.
Between two scoring events a ball is affected only by `Ball.update`, by
`Ball.launch` (velocity only), by the `slow_ball` effect (slow factor
only) and by the paddle-hit branch of `Game.handle_collisions`, whose
action on the speed field (lines 345-346) is exactly `speed *= 1.04`.
The trigonometric values the hit writes into `vel` (line 348-349) and the
nudged x position (line 351) do not touch the speed field, so the `hit`
event carries them as parameters. -/

inductive RallyEv where
  | move (dt : ℚ)
  | hit (vx vy px : ℚ)
  | launch (vx vy : ℚ)
  | slow (f : ℚ)

/-- Apply one in-rally event to a ball.  The `hit` case embeds lines
345-351 of `Game.handle_collisions`: `speed *= 1.04` (`26/25`), velocity
overwritten, ball nudged out of the paddle. -/
def rallyStep (b : Ball) : RallyEv → Ball
  | .move dt => b.update dt
  | .hit vx vy px => { b with speed := b.speed * (26 / 25), velx := vx, vely := vy, posx := px }
  | .launch vx vy => { b with velx := vx, vely := vy }
  | .slow f => { b with slow_factor := f }

/-- Number of paddle-hit events in an event list. -/
def hitCount : List RallyEv → ℕ
  | [] => 0
  | .hit _ _ _ :: rest => hitCount rest + 1
  | _ :: rest => hitCount rest

/- The trigonometric velocity computations, embedded over `ℝ`. -/

/-- `clamp` over the reals, for the reflection offset. -/
noncomputable def rclamp (x a b : ℝ) : ℝ := max a (min b x)

/-- `CPU_MAX_ANGLE = math.radians(60)` (line 54). -/
noncomputable def CPU_MAX_ANGLE : ℝ := 60 * (Real.pi / 180)

/-- A ball with real-valued position and velocity, for the launch and
reflection computations. -/
structure RBall where
  posx : ℝ
  posy : ℝ
  velx : ℝ
  vely : ℝ
  speed : ℝ
  slow_factor : ℝ

/-- `Ball.__init__` over `ℝ` (lines 158-164). -/
noncomputable def RBall.init (x y : ℝ) : RBall :=
  { posx := x, posy := y, velx := 0, vely := 0, speed := 380, slow_factor := 1 }

/-- `Ball.launch` (lines 166-170): `vel = (cos(ang) * direction, sin(ang))`
normalized and scaled by the ball's current speed. -/
noncomputable def RBall.launch (direction angle : ℝ) (b : RBall) : RBall :=
  let vx := Real.cos angle * direction
  let vy := Real.sin angle
  let n := Real.sqrt (vx ^ 2 + vy ^ 2)
  { b with velx := vx / n * b.speed, vely := vy / n * b.speed }

/-- One extra ball spawned by the `multi_ball` branch (lines 382-387): a
fresh ball at the primary ball's position is launched with the ball's own
(still base) speed, and only afterwards its `speed` attribute is set to
`0.9` times the primary ball's speed. -/
noncomputable def spawnExtraBall (primary : RBall) (direction angle : ℝ) : RBall :=
  let b := RBall.init primary.posx primary.posy
  let b2 := b.launch direction angle
  { b2 with speed := primary.speed * (9 / 10) }

/-- `rel_y` of the paddle-hit branch (lines 341-342). -/
noncomputable def rel_y (ball_y paddle_y paddle_h : ℝ) : ℝ :=
  rclamp ((ball_y - paddle_y) / (paddle_h / 2)) (-1) 1

/-- `dir_x` of the paddle-hit branch (line 344): `+1` for a paddle on the
left half of the field, `-1` otherwise. -/
noncomputable def dir_x (paddle_x : ℝ) : ℝ :=
  if paddle_x < 500 then 1 else -1

/-- The reflection angle of the paddle-hit branch (line 343). -/
noncomputable def hit_angle (ball_y paddle_y paddle_h : ℝ) : ℝ :=
  rel_y ball_y paddle_y paddle_h * CPU_MAX_ANGLE

/-- The outputs of the paddle-hit branch of `Game.handle_collisions`. -/
structure HitOut where
  velx : ℝ
  vely : ℝ
  speed : ℝ
  posx : ℝ

/-- Lines 341-351 of `Game.handle_collisions`: the new speed, velocity and
x position a paddle hit gives the ball (paddle width 14, ball radius 10). -/
noncomputable def handle_paddle_hit (ball_y ball_speed paddle_x paddle_y paddle_h : ℝ) : HitOut :=
  let angle := hit_angle ball_y paddle_y paddle_h
  let d := dir_x paddle_x
  let speed := ball_speed * (26 / 25)
  let vx := Real.cos angle * d
  let vy := Real.sin angle
  let n := Real.sqrt (vx ^ 2 + vy ^ 2)
  { velx := vx / n * speed, vely := vy / n * speed, speed := speed,
    posx := paddle_x + d * (14 / 2 + 10 + 2) }

/- Concrete states used by the witnesses and counterexamples. -/

/-- A mid-game state whose primary ball has just crossed the left edge. -/
def sampleGame : Game :=
  { score_l := 2, score_r := 3, serve_dir := 1, serve_ready := false,
    last_point_time := 1 / 2,
    ball := { posx := -60, posy := 300, velx := -380, vely := 0, speed := 380, slow_factor := 1 },
    extra_balls := [],
    left_paddle := Paddle.init 36 300,
    right_paddle := Paddle.init 964 300,
    menu_active := false, menu_selection := 0,
    boost_deadline := none, slow_deadline := none,
    big_deadline := none, multi_deadline := none }

/-- An extra ball as left behind by a `multi_ball` pickup: its slow factor
is the `Ball.__init__` default `1`. -/
def extraBall : Ball :=
  { posx := 600, posy := 300, velx := 100, vely := 0, speed := 380, slow_factor := 1 }

/-- `sampleGame` with one extra ball in play. -/
def sampleMulti : Game :=
  { sampleGame with extra_balls := [extraBall] }

/-- A left paddle after four stacked `big_paddle` pickups within one
effect window: height `110 * 1.6^4 ≈ 720.9` exceeds the screen. -/
def bigPaddle : Paddle :=
  (((Paddle.init 36 300).grow.grow).grow).grow

/- Helper lemmas. -/

theorem clamp_mem (x a b : ℚ) (hab : a ≤ b) : a ≤ clamp x a b ∧ clamp x a b ≤ b :=
  ⟨le_max_left a (min b x), max_le hab (min_le_left b x)⟩

theorem ballOut_iff (b : Ball) : ballOut b = true ↔ (b.posx < -50 ∨ WIDTH + 50 < b.posx) := by
  simp [ballOut]

theorem scoreLoop_spec (l : List Ball) (g : Game) :
    (l.find? ballOut = none → g.scoreLoop l = g) ∧
    (∀ b, l.find? ballOut = some b →
      (b.posx < -50 → g.scoreLoop l = g.rightScores) ∧
      (WIDTH + 50 < b.posx → g.scoreLoop l = g.leftScores)) := by
  induction l with
  | nil => exact ⟨fun _ => rfl, fun b hb => by simp at hb⟩
  | cons b rest ih =>
    by_cases hb : ballOut b = true
    · have hfind : (b :: rest).find? ballOut = some b := List.find?_cons_of_pos rest hb
      constructor
      · intro hnone
        rw [hfind] at hnone
        exact absurd hnone (by simp)
      · intro b0 hsome
        rw [hfind, Option.some.injEq] at hsome
        subst hsome
        constructor
        · intro hx
          simp only [Game.scoreLoop]
          rw [if_pos hx]
        · intro hx
          have hx2 : ¬ b.posx < -50 := by
            intro hlt
            have : (WIDTH : ℚ) + 50 < -50 := lt_trans hx hlt
            norm_num [WIDTH] at this
          simp only [Game.scoreLoop]
          rw [if_neg hx2, if_pos hx]
    · have hfind : (b :: rest).find? ballOut = rest.find? ballOut :=
        List.find?_cons_of_neg rest hb
      have hb2 : ¬ (b.posx < -50 ∨ WIDTH + 50 < b.posx) := by
        rw [← ballOut_iff]; exact hb
      push_neg at hb2
      have hstep : g.scoreLoop (b :: rest) = g.scoreLoop rest := by
        simp only [Game.scoreLoop]
        rw [if_neg (not_lt_of_ge hb2.1), if_neg (not_lt_of_ge hb2.2)]
      refine ⟨fun hnone => ?_, fun b0 hsome => ?_⟩
      · rw [hstep]
        exact ih.1 (hfind ▸ hnone)
      · rw [hstep] at *
        exact ih.2 b0 (hfind ▸ hsome)

theorem update_speed (dt : ℚ) (b : Ball) : (Ball.update dt b).speed = b.speed := by
  simp only [Ball.update]
  split_ifs <;> rfl

theorem foldl_speed (evs : List RallyEv) :
    ∀ b : Ball, (List.foldl rallyStep b evs).speed = b.speed * (26 / 25) ^ hitCount evs := by
  induction evs with
  | nil => intro b; simp [hitCount]
  | cons ev rest ih =>
    intro b
    rw [List.foldl_cons]
    cases ev with
    | move dt =>
      rw [show rallyStep b (RallyEv.move dt) = b.update dt from rfl, ih, update_speed]
      simp [hitCount]
    | hit vx vy px =>
      rw [ih]
      simp only [rallyStep, hitCount]
      ring
    | launch vx vy =>
      rw [ih]
      simp only [rallyStep, hitCount]
    | slow f =>
      rw [ih]
      simp only [rallyStep, hitCount]

theorem hitCount_append (l1 l2 : List RallyEv) :
    hitCount (l1 ++ l2) = hitCount l1 + hitCount l2 := by
  induction l1 with
  | nil => simp [hitCount]
  | cons ev rest ih =>
    cases ev with
    | move dt => simpa [hitCount] using ih
    | hit vx vy px =>
      have hstep : hitCount (RallyEv.hit vx vy px :: rest ++ l2)
          = hitCount (rest ++ l2) + 1 := rfl
      rw [hstep, ih]
      simp only [hitCount]
      omega
    | launch vx vy => simpa [hitCount] using ih
    | slow f => simpa [hitCount] using ih

/-- Claim C1: the first out-of-bounds ball found in the per-tick scoring
loop ends the rally: `x < -50` gives the right player exactly one point and
serve direction `-1`, `x > WIDTH + 50` gives the left player exactly one
point and serve direction `+1`; in either case all balls are replaced by a
fresh centered primary ball, the serve-wait state is entered, and the tick
scores at most one point in total. -/
theorem c1_scoring (g : Game) :
    ((g.scoring_check).score_l + (g.scoring_check).score_r ≤ g.score_l + g.score_r + 1) ∧
    ((g.ball :: g.extra_balls).find? ballOut = none → g.scoring_check = g) ∧
    (∀ b, (g.ball :: g.extra_balls).find? ballOut = some b →
      (b.posx < -50 →
        (g.scoring_check).score_r = g.score_r + 1 ∧
        (g.scoring_check).score_l = g.score_l ∧
        (g.scoring_check).serve_dir = -1 ∧
        (g.scoring_check).serve_ready = true ∧
        (g.scoring_check).ball = Ball.init (WIDTH / 2) (HEIGHT / 2) ∧
        (g.scoring_check).extra_balls = []) ∧
      (WIDTH + 50 < b.posx →
        (g.scoring_check).score_l = g.score_l + 1 ∧
        (g.scoring_check).score_r = g.score_r ∧
        (g.scoring_check).serve_dir = 1 ∧
        (g.scoring_check).serve_ready = true ∧
        (g.scoring_check).ball = Ball.init (WIDTH / 2) (HEIGHT / 2) ∧
        (g.scoring_check).extra_balls = [])) := by
  have hspec := scoreLoop_spec (g.ball :: g.extra_balls) g
  have hdef : g.scoring_check = g.scoreLoop (g.ball :: g.extra_balls) := rfl
  refine ⟨?_, fun hnone => by rw [hdef, hspec.1 hnone], fun b hfind => ?_⟩
  · cases hfind : (g.ball :: g.extra_balls).find? ballOut with
    | none =>
      rw [hdef, hspec.1 hfind]
      omega
    | some b =>
      have hout := List.find?_some hfind
      rw [ballOut_iff] at hout
      rcases hout with hx | hx
      · rw [hdef, (hspec.2 b hfind).1 hx]
        show g.score_l + (g.score_r + 1) ≤ g.score_l + g.score_r + 1
        omega
      · rw [hdef, (hspec.2 b hfind).2 hx]
        show g.score_l + 1 + g.score_r ≤ g.score_l + g.score_r + 1
        omega
  · refine ⟨fun hx => ?_, fun hx => ?_⟩
    · rw [hdef, (hspec.2 b hfind).1 hx]
      exact ⟨rfl, rfl, rfl, rfl, rfl, rfl⟩
    · rw [hdef, (hspec.2 b hfind).2 hx]
      exact ⟨rfl, rfl, rfl, rfl, rfl, rfl⟩

/-- Witness for C1 at a concrete state whose primary ball sits at
`x = -60 < -50`. -/
theorem c1_scoring_witness :
    (sampleGame.scoring_check).score_r = sampleGame.score_r + 1 ∧
    (sampleGame.scoring_check).score_l = sampleGame.score_l ∧
    (sampleGame.scoring_check).serve_dir = -1 ∧
    (sampleGame.scoring_check).serve_ready = true ∧
    (sampleGame.scoring_check).ball = Ball.init (WIDTH / 2) (HEIGHT / 2) ∧
    (sampleGame.scoring_check).extra_balls = [] :=
  ((c1_scoring sampleGame).2.2 sampleGame.ball
    (List.find?_cons_of_pos _ (by simp only [ballOut, sampleGame]; norm_num [WIDTH]))).1
    (by norm_num [sampleGame])

/-- Claim C3: starting from a freshly created ball, any in-rally event
sequence (moves with wall bounces, serves, slow-ball changes, paddle hits)
leaves the speed at `BALL_BASE_SPEED * 1.04 ^ N` where `N` is the number of
paddle hits, and the speed never decreases along the sequence. -/
theorem c3_speed_escalation (x y : ℚ) (l1 l2 : List RallyEv) :
    (List.foldl rallyStep (Ball.init x y) (l1 ++ l2)).speed
      = BALL_BASE_SPEED * (26 / 25) ^ hitCount (l1 ++ l2) ∧
    (List.foldl rallyStep (Ball.init x y) l1).speed
      ≤ (List.foldl rallyStep (Ball.init x y) (l1 ++ l2)).speed := by
  have h1 := foldl_speed (l1 ++ l2) (Ball.init x y)
  have h2 := foldl_speed l1 (Ball.init x y)
  have hinit : (Ball.init x y).speed = BALL_BASE_SPEED := rfl
  rw [hinit] at h1 h2
  refine ⟨h1, ?_⟩
  rw [h1, h2, hitCount_append]
  have hpow : ((26 : ℚ) / 25) ^ hitCount l1 ≤ (26 / 25) ^ (hitCount l1 + hitCount l2) :=
    pow_le_pow_right₀ (by norm_num) (Nat.le_add_right _ _)
  have hbase : (0 : ℚ) ≤ BALL_BASE_SPEED := by norm_num [BALL_BASE_SPEED]
  exact mul_le_mul_of_nonneg_left hpow hbase

/-- Claim C4: the per-tick win check sends a playing session to the menu
exactly when a score has reached `WIN_SCORE`, and never touches the
scores; the start and restart actions are what reset the scores to 0. -/
theorem c4_win_transition (g : Game) :
    (g.menu_active = false →
      ((g.check_win).menu_active = true ↔ (WIN_SCORE ≤ g.score_l ∨ WIN_SCORE ≤ g.score_r))) ∧
    (g.check_win).score_l = g.score_l ∧
    (g.check_win).score_r = g.score_r ∧
    (g.start_game).score_l = 0 ∧ (g.start_game).score_r = 0 ∧
    (g.restart).score_l = 0 ∧ (g.restart).score_r = 0 := by
  refine ⟨?_, ?_, ?_, rfl, rfl, rfl, rfl⟩
  · intro hm
    by_cases h : WIN_SCORE ≤ g.score_l ∨ WIN_SCORE ≤ g.score_r
    · simp [Game.check_win, h]
    · simp [Game.check_win, h, hm]
  · by_cases h : WIN_SCORE ≤ g.score_l ∨ WIN_SCORE ≤ g.score_r <;>
      simp [Game.check_win, h]
  · by_cases h : WIN_SCORE ≤ g.score_l ∨ WIN_SCORE ≤ g.score_r <;>
      simp [Game.check_win, h]

/-- Witness for C4 at a concrete playing state with scores 2 : 3. -/
theorem c4_win_transition_witness :
    (sampleGame.check_win).menu_active = true ↔
      (WIN_SCORE ≤ sampleGame.score_l ∨ WIN_SCORE ≤ sampleGame.score_r) :=
  (c4_win_transition sampleGame).1 rfl

/-- Counterexample to C5 as stated: after four stacked `big_paddle`
pickups the paddle is taller than the screen, the legal band is empty, and
the clamped `y` violates the claimed bounds. -/
theorem c5_counterexample :
    ¬ (bigPaddle.h / 2 + 8 ≤ (Paddle.update 1 bigPaddle).y ∧
       (Paddle.update 1 bigPaddle).y ≤ HEIGHT - bigPaddle.h / 2 - 8) := by
  rintro ⟨h1, h2⟩
  have hy : (Paddle.update 1 bigPaddle).y
      = max (bigPaddle.h / 2 + 8)
          (min (HEIGHT - bigPaddle.h / 2 - 8) (bigPaddle.y + bigPaddle.vel * 1)) := rfl
  rw [hy] at h2
  have hband := le_trans (le_max_left (bigPaddle.h / 2 + 8) _) h2
  have hb : bigPaddle.h = 90112 / 125 := by
    norm_num [bigPaddle, Paddle.grow, Paddle.set_height, Paddle.init, PADDLE_HEIGHT]
  rw [hb] at hband
  simp only [HEIGHT] at hband
  norm_num at hband

/-- Claim C5 (amended): whenever the paddle's height leaves a nonempty
legal band, i.e. `h/2 + 8 ≤ HEIGHT - h/2 - 8`, the paddle's `y` lies in
`[h/2 + 8, HEIGHT - h/2 - 8]` after every update, for every velocity and
`dt`. -/
theorem c5_paddle_bounds (p : Paddle) (dt : ℚ)
    (hband : p.h / 2 + 8 ≤ HEIGHT - p.h / 2 - 8) :
    p.h / 2 + 8 ≤ (Paddle.update dt p).y ∧
    (Paddle.update dt p).y ≤ HEIGHT - p.h / 2 - 8 := by
  have : (Paddle.update dt p).y = clamp (p.y + p.vel * dt) (p.h / 2 + 8) (HEIGHT - p.h / 2 - 8) := rfl
  rw [this]
  exact clamp_mem _ _ _ hband

/-- Witness for C5 at the default paddle. -/
theorem c5_paddle_bounds_witness :
    (Paddle.init 36 300).h / 2 + 8 ≤ (Paddle.update 1 (Paddle.init 36 300)).y ∧
    (Paddle.update 1 (Paddle.init 36 300)).y ≤ HEIGHT - (Paddle.init 36 300).h / 2 - 8 :=
  c5_paddle_bounds (Paddle.init 36 300) 1
    (by norm_num [Paddle.init, PADDLE_HEIGHT, HEIGHT])

/-- Counterexample to C6 as stated: picking up `speed_boost` twice with
the first effect still active multiplies the cap by 1.6 twice — the
multiplier stacks instead of being re-applied to the base. -/
theorem c6_counterexample :
    ((sampleGame.apply_speed_boost (-1) 0).apply_speed_boost (-1) 1).left_paddle.speed
      ≠ sampleGame.left_paddle.speed * (8 / 5) := by
  have hv : ((sampleGame.apply_speed_boost (-1) 0).apply_speed_boost (-1) 1).left_paddle.speed
      = sampleGame.left_paddle.speed * (8 / 5) * (8 / 5) := by
    simp [Game.apply_speed_boost]
  rw [hv]
  norm_num [sampleGame, Paddle.init, PADDLE_SPEED]

/-- Claim C6 (amended): each `speed_boost` pickup multiplies the owning
paddle's cap (and only that paddle's) by 1.6 — so a re-pickup stacks the
multiplier — and restarts the 6-second deadline; on expiry both paddles'
caps are set to the base constant `PADDLE_SPEED`. -/
theorem c6_speed_boost (g : Game) (t1 t2 : ℚ) :
    (g.apply_speed_boost (-1) t1).left_paddle.speed = g.left_paddle.speed * (8 / 5) ∧
    (g.apply_speed_boost (-1) t1).right_paddle = g.right_paddle ∧
    (g.apply_speed_boost 1 t1).right_paddle.speed = g.right_paddle.speed * (8 / 5) ∧
    (g.apply_speed_boost 1 t1).left_paddle = g.left_paddle ∧
    (g.apply_speed_boost (-1) t1).boost_deadline = some (t1 + POWERUP_DURATION) ∧
    (g.apply_speed_boost 1 t1).boost_deadline = some (t1 + POWERUP_DURATION) ∧
    ((g.apply_speed_boost (-1) t1).apply_speed_boost (-1) t2).left_paddle.speed
      = g.left_paddle.speed * (8 / 5) * (8 / 5) ∧
    (g.expire_speed_boost).left_paddle.speed = PADDLE_SPEED ∧
    (g.expire_speed_boost).right_paddle.speed = PADDLE_SPEED ∧
    (g.expire_speed_boost).boost_deadline = none := by
  simp [Game.apply_speed_boost, Game.expire_speed_boost]

/-- Counterexample to C7 as stated: with one extra ball in play, picking
up `slow_ball` leaves the extra ball's slow factor at 1, and its motion
still advances by `vel * dt * 1`, not by `vel * dt * 0.55`. -/
theorem c7_counterexample :
    (sampleMulti.apply_slow_ball 0).extra_balls = [extraBall] ∧
    extraBall.slow_factor = 1 ∧ ¬ ((1 : ℚ) = 11 / 20) ∧
    (Ball.update 1 extraBall).posx = extraBall.posx + extraBall.velx * 1 * 1 := by
  refine ⟨rfl, rfl, by norm_num, ?_⟩
  simp only [Ball.update, extraBall, BALL_RADIUS, HEIGHT]
  norm_num

/-- Claim C7 (amended): `slow_ball` sets the primary ball's slow factor to
0.55 and leaves every extra ball untouched; on expiry the primary ball's
slow factor reverts to 1 and the extra balls are again untouched. -/
theorem c7_slow_ball (g : Game) (now : ℚ) :
    (g.apply_slow_ball now).ball.slow_factor = 11 / 20 ∧
    (g.apply_slow_ball now).ball.posx = g.ball.posx ∧
    (g.apply_slow_ball now).ball.posy = g.ball.posy ∧
    (g.apply_slow_ball now).ball.velx = g.ball.velx ∧
    (g.apply_slow_ball now).ball.vely = g.ball.vely ∧
    (g.apply_slow_ball now).ball.speed = g.ball.speed ∧
    (g.apply_slow_ball now).extra_balls = g.extra_balls ∧
    (g.apply_slow_ball now).slow_deadline = some (now + POWERUP_DURATION) ∧
    (g.expire_slow_ball).ball.slow_factor = 1 ∧
    (g.expire_slow_ball).extra_balls = g.extra_balls :=
  ⟨rfl, rfl, rfl, rfl, rfl, rfl, rfl, rfl, rfl, rfl⟩

/-- Counterexample to C9 as stated: with the ball moving toward the left
paddle at exactly `vx = -1e-6`, the prediction branch is taken and the
guarded denominator `vx + 1e-6` is exactly zero. -/
theorem c9_counterexample :
    cpuBranch 36 (-(1 / 1000000)) ∧ cpuDenom (-(1 / 1000000)) = 0 :=
  ⟨Or.inr ⟨by norm_num, by norm_num [WIDTH]⟩, by norm_num [cpuDenom]⟩

/-- Claim C9 (amended): on the prediction branch the guarded denominator
`vx + 1e-6` is nonzero for every velocity except exactly `vx = -1e-6`,
where it vanishes. -/
theorem c9_cpu_guard (paddle_x vel_x : ℚ) (_hb : cpuBranch paddle_x vel_x)
    (hne : vel_x ≠ -(1 / 1000000)) : cpuDenom vel_x ≠ 0 := by
  unfold cpuDenom
  intro h
  apply hne
  linarith

/-- Witness for C9: a ball drifting left at 1 px/s toward the left paddle. -/
theorem c9_cpu_guard_witness : cpuDenom (-1) ≠ 0 :=
  c9_cpu_guard 36 (-1) (Or.inr ⟨by norm_num, by norm_num [WIDTH]⟩) (by norm_num)

theorem rclamp_mem (x : ℝ) : -1 ≤ rclamp x (-1) 1 ∧ rclamp x (-1) 1 ≤ 1 :=
  ⟨le_max_left _ _, max_le (by norm_num) (min_le_left _ _)⟩

theorem dir_x_cases (px : ℝ) : dir_x px = 1 ∨ dir_x px = -1 := by
  unfold dir_x
  split
  · exact Or.inl rfl
  · exact Or.inr rfl

theorem CPU_MAX_ANGLE_eq : CPU_MAX_ANGLE = Real.pi / 3 := by
  unfold CPU_MAX_ANGLE
  ring

/-- The direction vector `(cos a * d, sin a)` built by `Ball.launch` and by
the paddle-hit branch is a unit vector when `d = ±1`, so pygame's
`normalize()` divides by 1. -/
theorem dirvec_norm (a d : ℝ) (hd : d = 1 ∨ d = -1) :
    Real.sqrt ((Real.cos a * d) ^ 2 + Real.sin a ^ 2) = 1 := by
  have hd2 : d ^ 2 = 1 := by rcases hd with h | h <;> rw [h] <;> norm_num
  have hone : (Real.cos a * d) ^ 2 + Real.sin a ^ 2 = 1 := by
    have hpyth := Real.sin_sq_add_cos_sq a
    nlinarith [hd2]
  rw [hone, Real.sqrt_one]

theorem cos_hit_angle_pos (ball_y paddle_y paddle_h : ℝ) :
    0 < Real.cos (hit_angle ball_y paddle_y paddle_h) := by
  have hr := rclamp_mem ((ball_y - paddle_y) / (paddle_h / 2))
  have hθ : hit_angle ball_y paddle_y paddle_h
      = rel_y ball_y paddle_y paddle_h * (Real.pi / 3) := by
    rw [hit_angle, CPU_MAX_ANGLE_eq]
  have hr1 : -1 ≤ rel_y ball_y paddle_y paddle_h := hr.1
  have hr2 : rel_y ball_y paddle_y paddle_h ≤ 1 := hr.2
  apply Real.cos_pos_of_mem_Ioo
  constructor
  · rw [hθ]
    nlinarith [Real.pi_pos, hr1, hr2]
  · rw [hθ]
    nlinarith [Real.pi_pos, hr1, hr2]

/-- Claim C2: a paddle hit gives the ball the velocity of magnitude equal
to its (increased) speed making the signed angle `rel_y * 60°` with the
horizontal; the horizontal direction of the exit velocity is `+1` exactly
when the struck paddle sits on the left half of the field, whichever
paddle it is. -/
theorem c2_paddle_reflection (ball_y ball_speed paddle_x paddle_y paddle_h : ℝ)
    (hs : 0 < ball_speed) :
    (handle_paddle_hit ball_y ball_speed paddle_x paddle_y paddle_h).velx
      = ball_speed * (26 / 25) * Real.cos (hit_angle ball_y paddle_y paddle_h) * dir_x paddle_x ∧
    (handle_paddle_hit ball_y ball_speed paddle_x paddle_y paddle_h).vely
      = ball_speed * (26 / 25) * Real.sin (hit_angle ball_y paddle_y paddle_h) ∧
    (handle_paddle_hit ball_y ball_speed paddle_x paddle_y paddle_h).speed
      = ball_speed * (26 / 25) ∧
    Real.sqrt ((handle_paddle_hit ball_y ball_speed paddle_x paddle_y paddle_h).velx ^ 2
        + (handle_paddle_hit ball_y ball_speed paddle_x paddle_y paddle_h).vely ^ 2)
      = ball_speed * (26 / 25) ∧
    (rel_y ball_y paddle_y paddle_h = 0 →
      (handle_paddle_hit ball_y ball_speed paddle_x paddle_y paddle_h).vely = 0 ∧
      (handle_paddle_hit ball_y ball_speed paddle_x paddle_y paddle_h).velx
        = ball_speed * (26 / 25) * dir_x paddle_x) ∧
    (rel_y ball_y paddle_y paddle_h = 1 →
      hit_angle ball_y paddle_y paddle_h = Real.pi / 3) ∧
    (rel_y ball_y paddle_y paddle_h = -1 →
      hit_angle ball_y paddle_y paddle_h = -(Real.pi / 3)) ∧
    (paddle_x < 500 → dir_x paddle_x = 1 ∧
      0 < (handle_paddle_hit ball_y ball_speed paddle_x paddle_y paddle_h).velx) ∧
    (¬ paddle_x < 500 → dir_x paddle_x = -1 ∧
      (handle_paddle_hit ball_y ball_speed paddle_x paddle_y paddle_h).velx < 0) := by
  have hd := dir_x_cases paddle_x
  have hn : Real.sqrt ((Real.cos (hit_angle ball_y paddle_y paddle_h) * dir_x paddle_x) ^ 2
      + Real.sin (hit_angle ball_y paddle_y paddle_h) ^ 2) = 1 :=
    dirvec_norm _ _ hd
  have hone : (Real.cos (hit_angle ball_y paddle_y paddle_h) * dir_x paddle_x) ^ 2
      + Real.sin (hit_angle ball_y paddle_y paddle_h) ^ 2 = 1 :=
    Real.sqrt_eq_one.mp hn
  have hvx0 : (handle_paddle_hit ball_y ball_speed paddle_x paddle_y paddle_h).velx
      = Real.cos (hit_angle ball_y paddle_y paddle_h) * dir_x paddle_x
        / Real.sqrt ((Real.cos (hit_angle ball_y paddle_y paddle_h) * dir_x paddle_x) ^ 2
          + Real.sin (hit_angle ball_y paddle_y paddle_h) ^ 2)
        * (ball_speed * (26 / 25)) := rfl
  have hvy0 : (handle_paddle_hit ball_y ball_speed paddle_x paddle_y paddle_h).vely
      = Real.sin (hit_angle ball_y paddle_y paddle_h)
        / Real.sqrt ((Real.cos (hit_angle ball_y paddle_y paddle_h) * dir_x paddle_x) ^ 2
          + Real.sin (hit_angle ball_y paddle_y paddle_h) ^ 2)
        * (ball_speed * (26 / 25)) := rfl
  rw [hn, div_one] at hvx0
  rw [hn, div_one] at hvy0
  have hvx : (handle_paddle_hit ball_y ball_speed paddle_x paddle_y paddle_h).velx
      = ball_speed * (26 / 25) * Real.cos (hit_angle ball_y paddle_y paddle_h) * dir_x paddle_x := by
    rw [hvx0]; ring
  have hvy : (handle_paddle_hit ball_y ball_speed paddle_x paddle_y paddle_h).vely
      = ball_speed * (26 / 25) * Real.sin (hit_angle ball_y paddle_y paddle_h) := by
    rw [hvy0]; ring
  have hs2 : (0 : ℝ) < ball_speed * (26 / 25) := by positivity
  have hcos := cos_hit_angle_pos ball_y paddle_y paddle_h
  refine ⟨hvx, hvy, rfl, ?_, ?_, ?_, ?_, ?_, ?_⟩
  · have hsq : (handle_paddle_hit ball_y ball_speed paddle_x paddle_y paddle_h).velx ^ 2
        + (handle_paddle_hit ball_y ball_speed paddle_x paddle_y paddle_h).vely ^ 2
        = (ball_speed * (26 / 25)) ^ 2 := by
      rw [hvx, hvy]
      nlinarith [hone]
    rw [hsq]
    exact Real.sqrt_sq hs2.le
  · intro hr
    have hθ : hit_angle ball_y paddle_y paddle_h = 0 := by
      rw [hit_angle, hr, zero_mul]
    constructor
    · rw [hvy, hθ, Real.sin_zero, mul_zero]
    · rw [hvx, hθ, Real.cos_zero, mul_one]
  · intro hr
    rw [hit_angle, hr, one_mul, CPU_MAX_ANGLE_eq]
  · intro hr
    rw [hit_angle, hr, CPU_MAX_ANGLE_eq]
    ring
  · intro hpx
    have hd1 : dir_x paddle_x = 1 := by rw [dir_x, if_pos hpx]
    refine ⟨hd1, ?_⟩
    rw [hvx, hd1, mul_one]
    positivity
  · intro hpx
    have hd1 : dir_x paddle_x = -1 := by rw [dir_x, if_neg hpx]
    refine ⟨hd1, ?_⟩
    rw [hvx, hd1]
    nlinarith

/-- Witness for C2: a center hit on the left paddle at base speed. -/
theorem c2_paddle_reflection_witness :
    (handle_paddle_hit 300 380 36 300 110).vely
      = 380 * (26 / 25) * Real.sin (hit_angle 300 300 110) ∧
    Real.sqrt ((handle_paddle_hit 300 380 36 300 110).velx ^ 2
        + (handle_paddle_hit 300 380 36 300 110).vely ^ 2) = 380 * (26 / 25) ∧
    (36 : ℝ) < 500 ∧ 0 < (handle_paddle_hit 300 380 36 300 110).velx := by
  have h := c2_paddle_reflection 300 380 36 300 110 (by norm_num)
  exact ⟨h.2.1, h.2.2.2.1, by norm_num, (h.2.2.2.2.2.2.2.1 (by norm_num)).2⟩

theorem spawnExtraBall_fields (primary : RBall) (d a : ℝ) (hd : d = 1 ∨ d = -1) :
    (spawnExtraBall primary d a).posx = primary.posx ∧
    (spawnExtraBall primary d a).posy = primary.posy ∧
    (spawnExtraBall primary d a).speed = primary.speed * (9 / 10) ∧
    Real.sqrt ((spawnExtraBall primary d a).velx ^ 2
      + (spawnExtraBall primary d a).vely ^ 2) = 380 := by
  have hn : Real.sqrt ((Real.cos a * d) ^ 2 + Real.sin a ^ 2) = 1 := dirvec_norm a d hd
  have hone : (Real.cos a * d) ^ 2 + Real.sin a ^ 2 = 1 := Real.sqrt_eq_one.mp hn
  have hvx0 : (spawnExtraBall primary d a).velx
      = Real.cos a * d / Real.sqrt ((Real.cos a * d) ^ 2 + Real.sin a ^ 2) * 380 := rfl
  have hvy0 : (spawnExtraBall primary d a).vely
      = Real.sin a / Real.sqrt ((Real.cos a * d) ^ 2 + Real.sin a ^ 2) * 380 := rfl
  rw [hn, div_one] at hvx0
  rw [hn, div_one] at hvy0
  refine ⟨rfl, rfl, rfl, ?_⟩
  have hsq : (spawnExtraBall primary d a).velx ^ 2 + (spawnExtraBall primary d a).vely ^ 2
      = (380 : ℝ) ^ 2 := by
    rw [hvx0, hvy0]
    nlinarith [hone]
  rw [hsq]
  exact Real.sqrt_sq (by norm_num)

/-- Counterexample to C8 as stated: an extra ball spawned while the
primary ball is at base speed 380 leaves with velocity magnitude 380, not
`0.9 * 380 = 342` — `launch` runs before the `speed` attribute is set. -/
theorem c8_counterexample :
    Real.sqrt ((spawnExtraBall (RBall.init 500 300) 1 0).velx ^ 2
      + (spawnExtraBall (RBall.init 500 300) 1 0).vely ^ 2) = 380 ∧
    (RBall.init 500 300).speed * (9 / 10) = 342 ∧ (380 : ℝ) ≠ 342 := by
  refine ⟨(spawnExtraBall_fields (RBall.init 500 300) 1 0 (Or.inl rfl)).2.2.2, ?_, by norm_num⟩
  show (380 : ℝ) * (9 / 10) = 342
  norm_num

/-- Claim C8 (amended): `multi_ball` appends exactly two extra balls, each
at the primary ball's position with its `speed` attribute set to 90% of
the primary ball's speed but its launch velocity of magnitude
`BALL_BASE_SPEED = 380` (the launch happens before the speed assignment);
the deadline restarts on pickup, and the ball set returns to exactly the
one primary ball on effect expiry or on any scoring event. -/
theorem c8_multi_ball :
    (∀ (primary : RBall) (d a : ℝ), d = 1 ∨ d = -1 →
      (spawnExtraBall primary d a).posx = primary.posx ∧
      (spawnExtraBall primary d a).posy = primary.posy ∧
      (spawnExtraBall primary d a).speed = primary.speed * (9 / 10) ∧
      Real.sqrt ((spawnExtraBall primary d a).velx ^ 2
        + (spawnExtraBall primary d a).vely ^ 2) = 380) ∧
    (∀ (g : Game) (b1 b2 : Ball) (now : ℚ),
      (g.apply_multi_ball b1 b2 now).extra_balls.length = g.extra_balls.length + 2 ∧
      (g.apply_multi_ball b1 b2 now).multi_deadline = some (now + POWERUP_DURATION) ∧
      (g.expire_multi_ball).extra_balls = [] ∧
      ((g.expire_multi_ball).ball :: (g.expire_multi_ball).extra_balls).length = 1) ∧
    (∀ (g : Game) (b : Ball), (g.ball :: g.extra_balls).find? ballOut = some b →
      (g.scoring_check).extra_balls = [] ∧
      ((g.scoring_check).ball :: (g.scoring_check).extra_balls).length = 1) := by
  refine ⟨spawnExtraBall_fields, fun g b1 b2 now => ?_, fun g b hfind => ?_⟩
  · refine ⟨?_, rfl, rfl, rfl⟩
    show (g.extra_balls ++ [b1, b2]).length = g.extra_balls.length + 2
    simp
  · have hout := List.find?_some hfind
    rw [ballOut_iff] at hout
    have hdef : g.scoring_check = g.scoreLoop (g.ball :: g.extra_balls) := rfl
    rcases hout with hx | hx
    · rw [hdef, (scoreLoop_spec (g.ball :: g.extra_balls) g).2 b hfind |>.1 hx]
      exact ⟨rfl, rfl⟩
    · rw [hdef, (scoreLoop_spec (g.ball :: g.extra_balls) g).2 b hfind |>.2 hx]
      exact ⟨rfl, rfl⟩

/-- Witness for C8: a rightward, angle-0 spawn from a fresh primary ball,
and the scoring event of `sampleGame`. -/
theorem c8_multi_ball_witness :
    ((spawnExtraBall (RBall.init 500 300) 1 0).speed = (RBall.init 500 300).speed * (9 / 10) ∧
      Real.sqrt ((spawnExtraBall (RBall.init 500 300) 1 0).velx ^ 2
        + (spawnExtraBall (RBall.init 500 300) 1 0).vely ^ 2) = 380) ∧
    ((sampleGame.scoring_check).extra_balls = [] ∧
      ((sampleGame.scoring_check).ball :: (sampleGame.scoring_check).extra_balls).length = 1) := by
  have h1 := c8_multi_ball.1 (RBall.init 500 300) 1 0 (Or.inl rfl)
  have h2 := c8_multi_ball.2.2 sampleGame sampleGame.ball
    (List.find?_cons_of_pos _ (by simp only [ballOut, sampleGame]; norm_num [WIDTH]))
  exact ⟨⟨h1.2.2.1, h1.2.2.2⟩, h2⟩

/-- At `p = 2^100` (a finite double) the float loop body of lines 208-212
maps `p` to exactly `-p`: the exact difference `1200 - 2^100` lies within
half an ulp (`2^47` in its binade `[2^99, 2^100]`) of `-2^100`, so the
subtraction rounds to `-2^100`. -/
theorem foldStepDouble_big_cancel :
    foldStepDouble (2 ^ 47) (2 ^ 100) = -(2 ^ 100) := by
  have h0 : ¬ ((2 ^ 100 : ℚ) < 0) := by norm_num
  have h1 : HEIGHT < (2 ^ 100 : ℚ) := by norm_num [HEIGHT]
  rw [foldStepDouble, if_neg h0, if_pos h1, roundNearest]
  have hx : (2 * HEIGHT - 2 ^ 100) / 2 ^ 47 = (75 / 2 ^ 43 : ℚ) + ((-(2 ^ 53) : ℤ) : ℚ) := by
    push_cast
    norm_num [HEIGHT]
  rw [hx, round_add_int]
  have hz : round ((75 : ℚ) / 2 ^ 43) = 0 := by
    rw [round_eq]
    norm_num
  rw [hz]
  push_cast
  ring

/-- Negating a double is exact, so the float loop body sends `-(2^100)`
straight back to `2^100`. -/
theorem foldStepDouble_neg_cancel :
    foldStepDouble (2 ^ 47) (-(2 ^ 100)) = 2 ^ 100 := by
  have h0 : (-(2 ^ 100) : ℚ) < 0 := by norm_num
  rw [foldStepDouble, if_pos h0, neg_neg]

/-- Claim C10 (code-bug evidence): on binary64 floats the
reflection-folding loop does not terminate for every finite predicted y.
At `predicted = 2^100` the body's subtraction `2*HEIGHT - p` rounds to
exactly `-p`, so every iterate is `2^100` or `-(2^100)` and no iterate
ever lies in `[0, HEIGHT]` — the `while` condition never becomes false. -/
theorem c10_float_divergence :
    ∀ n : ℕ,
      ((foldStepDouble (2 ^ 47))^[n] (2 ^ 100) = 2 ^ 100 ∨
        (foldStepDouble (2 ^ 47))^[n] (2 ^ 100) = -(2 ^ 100)) ∧
      ¬ (0 ≤ (foldStepDouble (2 ^ 47))^[n] (2 ^ 100) ∧
          (foldStepDouble (2 ^ 47))^[n] (2 ^ 100) ≤ HEIGHT) := by
  have hout : ∀ q : ℚ, q = 2 ^ 100 ∨ q = -(2 ^ 100) → ¬ (0 ≤ q ∧ q ≤ HEIGHT) := by
    rintro q (rfl | rfl)
    · rintro ⟨-, h2⟩
      norm_num [HEIGHT] at h2
    · rintro ⟨h1, -⟩
      norm_num at h1
  intro n
  induction n with
  | zero => exact ⟨Or.inl rfl, hout _ (Or.inl rfl)⟩
  | succ n ih =>
    rcases ih.1 with h | h
    · have hs : (foldStepDouble (2 ^ 47))^[n + 1] (2 ^ 100) = -(2 ^ 100) := by
        rw [Function.iterate_succ_apply', h, foldStepDouble_big_cancel]
      exact ⟨Or.inr hs, hout _ (Or.inr hs)⟩
    · have hs : (foldStepDouble (2 ^ 47))^[n + 1] (2 ^ 100) = 2 ^ 100 := by
        rw [Function.iterate_succ_apply', h, foldStepDouble_neg_cancel]
      exact ⟨Or.inl hs, hout _ (Or.inl hs)⟩

end PingPong
